import Mathlib

/- Verification of the LiverLink allocation core: the Scoring Engine, the
ranking order, the Allocation Store's accept/contact operations, the ranking
pipeline's progress states, and the Agent Log UI's gating logic.

The backend Python sources (backend/app/agents/organ_allocation_agent.py,
backend/app/memory/allocation_memory.py, the donor router handlers) are not
present in the repository snapshot; only the frontend TypeScript, the README
with the literal scoring code blocks, and the workflow documentation are.
Definitions for those backend pieces are therefore modelled from the spec and
from the README code blocks, as marked in their doc comments. Frontend logic
(AgentLog.tsx, PatientCard) is translated directly from the TypeScript.
Real-number scores are embedded as rationals. -/

namespace LiverLink

/-- Clinical markers of one waitlisted patient, as consumed by the scoring
formulas in the README section "Organ Allocation Scoring System". -/
structure PatientMarkers where
  meld : ℚ
  survival_6hr_prob : ℚ
  hla_match : ℚ
  hla_antibody_level : ℚ
  distance_to_donor_km : ℚ
  icu_bed_available : Bool
  or_available : Bool
  hepatocellular_carcinoma : Bool
  diabetes : Bool
  renal_failure : Bool
  ventilator_dependent : Bool

/-- Modelled from the spec: backend/app/agents/organ_allocation_agent.py is
absent from the snapshot; formula from the README, urgency_score = meld / 40. -/
def urgency_score (p : PatientMarkers) : ℚ := p.meld / 40

/-- Modelled from the spec: survival_score = survival_6hr_prob, already a
probability in the unit interval per the README. -/
def survival_score (p : PatientMarkers) : ℚ := p.survival_6hr_prob

/-- Modelled from the spec: immuno_score is the average of hla_match / 100 and
1 - hla_antibody_level / 100, per the README code block. -/
def immuno_score (p : PatientMarkers) : ℚ :=
  (p.hla_match / 100 + (1 - p.hla_antibody_level / 100)) / 2

/-- Modelled from the spec: distance_score = 1 - min(distance_to_donor_km,
1000) / 1000, per the README code block. -/
def distance_score (p : PatientMarkers) : ℚ :=
  1 - min p.distance_to_donor_km 1000 / 1000

/-- Modelled from the spec: readiness_score averages an ICU indicator (1.0 if
an ICU bed is available, else 0.3) and an OR indicator (1.0 if an operating
room is available, else 0.5), per the README code block. -/
def readiness_score (p : PatientMarkers) : ℚ :=
  ((if p.icu_bed_available then 1 else 3/10) +
   (if p.or_available then 1 else 1/2)) / 2

/-- Modelled from the spec: total_penalty sums the active risk-flag penalties
(HCC 0.20, diabetes 0.10, renal failure 0.15, ventilator dependence 0.25),
per the README code block. -/
def total_penalty (p : PatientMarkers) : ℚ :=
  (if p.hepatocellular_carcinoma then 2/10 else 0) +
  (if p.diabetes then 1/10 else 0) +
  (if p.renal_failure then 15/100 else 0) +
  (if p.ventilator_dependent then 25/100 else 0)

/-- Modelled from the spec: risk_adjustment = 1 - total_penalty, per the
README code block (the README code applies no explicit floor). -/
def risk_adjustment (p : PatientMarkers) : ℚ := 1 - total_penalty p

/-- Risk adjustment as the spec words it in section 4.1: 1 minus the summed
penalties, floored at 0.0. Stated separately so the README formula can be
proved to refine it. -/
def risk_adjustment_spec (p : PatientMarkers) : ℚ := max (1 - total_penalty p) 0

/-- Modelled from the spec: the composite allocation score is the weighted sum
of the six sub-scores with weights 0.35, 0.25, 0.12, 0.10, 0.10, 0.08, per the
README "Scoring Formula" code block. -/
def allocation_score (p : PatientMarkers) : ℚ :=
  35/100 * urgency_score p +
  25/100 * survival_score p +
  12/100 * immuno_score p +
  10/100 * distance_score p +
  10/100 * readiness_score p +
  8/100 * risk_adjustment p

/-- The six fixed weights of the composite score, in sub-score order. -/
def score_weights : List ℚ := [35/100, 25/100, 12/100, 10/100, 10/100, 8/100]

/-- Score breakdown attached to a ranked candidate: the six sub-scores plus
the composite. -/
structure ScoreBreakdown where
  urgency : ℚ
  survival : ℚ
  immuno : ℚ
  distance : ℚ
  readiness : ℚ
  risk : ℚ
  composite : ℚ

/-- Modelled from the spec: the Scoring Engine's full output for one patient. -/
def scoreBreakdown (p : PatientMarkers) : ScoreBreakdown :=
  { urgency := urgency_score p
    survival := survival_score p
    immuno := immuno_score p
    distance := distance_score p
    readiness := readiness_score p
    risk := risk_adjustment p
    composite := allocation_score p }

/-- The worked example patient of the README ("Kevin Marshall"): MELD 28,
survival 0.75, HLA match 85, antibody level 10, distance 120 km, ICU and OR
available, diabetes as the only risk flag. -/
def kevinMarshall : PatientMarkers :=
  { meld := 28
    survival_6hr_prob := 3/4
    hla_match := 85
    hla_antibody_level := 10
    distance_to_donor_km := 120
    icu_bed_available := true
    or_available := true
    hepatocellular_carcinoma := false
    diabetes := true
    renal_failure := false
    ventilator_dependent := false }

/-- A patient at distance 1500 km with every other marker benign, used for the
distance clamp boundary. -/
def farPatient : PatientMarkers :=
  { meld := 20
    survival_6hr_prob := 1/2
    hla_match := 50
    hla_antibody_level := 50
    distance_to_donor_km := 1500
    icu_bed_available := true
    or_available := true
    hepatocellular_carcinoma := false
    diabetes := false
    renal_failure := false
    ventilator_dependent := false }

/-- A patient with all four risk flags active, used for the maximal-penalty
boundary. -/
def allRiskPatient : PatientMarkers :=
  { meld := 20
    survival_6hr_prob := 1/2
    hla_match := 50
    hla_antibody_level := 50
    distance_to_donor_km := 100
    icu_bed_available := true
    or_available := true
    hepatocellular_carcinoma := true
    diabetes := true
    renal_failure := true
    ventilator_dependent := true }

end LiverLink

namespace LiverLink

/-- C2: for every ScoreBreakdown produced by the Scoring Engine on in-range
inputs (MELD in [0,40], survival probability in [0,1], HLA match and antibody
level in [0,100] percent, nonnegative distance), each of the six sub-scores
lies in [0,1]; the composite equals the weighted sum with the fixed weights
0.35, 0.25, 0.12, 0.10, 0.10, 0.08 within tolerance 1e-6 (here exactly); and
those weights sum to 1. -/
theorem scoring_subscores_bounded_and_composite_weighted (p : PatientMarkers)
    (hm0 : 0 ≤ p.meld) (hm1 : p.meld ≤ 40)
    (hs0 : 0 ≤ p.survival_6hr_prob) (hs1 : p.survival_6hr_prob ≤ 1)
    (hh0 : 0 ≤ p.hla_match) (hh1 : p.hla_match ≤ 100)
    (ha0 : 0 ≤ p.hla_antibody_level) (ha1 : p.hla_antibody_level ≤ 100)
    (hd0 : 0 ≤ p.distance_to_donor_km) :
    (0 ≤ (scoreBreakdown p).urgency ∧ (scoreBreakdown p).urgency ≤ 1) ∧
    (0 ≤ (scoreBreakdown p).survival ∧ (scoreBreakdown p).survival ≤ 1) ∧
    (0 ≤ (scoreBreakdown p).immuno ∧ (scoreBreakdown p).immuno ≤ 1) ∧
    (0 ≤ (scoreBreakdown p).distance ∧ (scoreBreakdown p).distance ≤ 1) ∧
    (0 ≤ (scoreBreakdown p).readiness ∧ (scoreBreakdown p).readiness ≤ 1) ∧
    (0 ≤ (scoreBreakdown p).risk ∧ (scoreBreakdown p).risk ≤ 1) ∧
    |(scoreBreakdown p).composite -
      (35/100 * (scoreBreakdown p).urgency + 25/100 * (scoreBreakdown p).survival +
       12/100 * (scoreBreakdown p).immuno + 10/100 * (scoreBreakdown p).distance +
       10/100 * (scoreBreakdown p).readiness + 8/100 * (scoreBreakdown p).risk)|
      ≤ 1/1000000 ∧
    score_weights.sum = 1 := by
  have hmin0 : 0 ≤ min p.distance_to_donor_km 1000 := le_min hd0 (by norm_num)
  have hmin1 : min p.distance_to_donor_km 1000 ≤ 1000 := min_le_right _ _
  refine ⟨⟨?_, ?_⟩, ⟨hs0, hs1⟩, ⟨?_, ?_⟩, ⟨?_, ?_⟩, ⟨?_, ?_⟩, ⟨?_, ?_⟩, ?_, ?_⟩
  · unfold scoreBreakdown urgency_score
    positivity
  · unfold scoreBreakdown urgency_score
    rw [div_le_one (by norm_num)]
    linarith
  · unfold scoreBreakdown immuno_score
    have h1 : 0 ≤ p.hla_match / 100 := by positivity
    have h2 : p.hla_antibody_level / 100 ≤ 1 := by
      rw [div_le_one (by norm_num)]; linarith
    linarith
  · unfold scoreBreakdown immuno_score
    have h1 : p.hla_match / 100 ≤ 1 := by
      rw [div_le_one (by norm_num)]; linarith
    have h2 : 0 ≤ p.hla_antibody_level / 100 := by positivity
    linarith
  · unfold scoreBreakdown distance_score
    have : min p.distance_to_donor_km 1000 / 1000 ≤ 1 := by
      rw [div_le_one (by norm_num)]; linarith
    linarith
  · unfold scoreBreakdown distance_score
    have : 0 ≤ min p.distance_to_donor_km 1000 / 1000 := by positivity
    linarith
  · unfold scoreBreakdown readiness_score
    rcases p.icu_bed_available <;> rcases p.or_available <;> norm_num
  · unfold scoreBreakdown readiness_score
    rcases p.icu_bed_available <;> rcases p.or_available <;> norm_num
  · unfold scoreBreakdown risk_adjustment total_penalty
    rcases p.hepatocellular_carcinoma <;> rcases p.diabetes <;>
      rcases p.renal_failure <;> rcases p.ventilator_dependent <;> norm_num
  · unfold scoreBreakdown risk_adjustment total_penalty
    rcases p.hepatocellular_carcinoma <;> rcases p.diabetes <;>
      rcases p.renal_failure <;> rcases p.ventilator_dependent <;> norm_num
  · unfold scoreBreakdown allocation_score
    simp
  · unfold score_weights
    norm_num

/-- C2 witness: the theorem applied to the worked-example patient, whose
markers satisfy every range hypothesis. -/
theorem scoring_subscores_bounded_and_composite_weighted_witness :
    (0 ≤ (scoreBreakdown kevinMarshall).urgency ∧ (scoreBreakdown kevinMarshall).urgency ≤ 1) ∧
    (0 ≤ (scoreBreakdown kevinMarshall).survival ∧ (scoreBreakdown kevinMarshall).survival ≤ 1) ∧
    (0 ≤ (scoreBreakdown kevinMarshall).immuno ∧ (scoreBreakdown kevinMarshall).immuno ≤ 1) ∧
    (0 ≤ (scoreBreakdown kevinMarshall).distance ∧ (scoreBreakdown kevinMarshall).distance ≤ 1) ∧
    (0 ≤ (scoreBreakdown kevinMarshall).readiness ∧ (scoreBreakdown kevinMarshall).readiness ≤ 1) ∧
    (0 ≤ (scoreBreakdown kevinMarshall).risk ∧ (scoreBreakdown kevinMarshall).risk ≤ 1) ∧
    |(scoreBreakdown kevinMarshall).composite -
      (35/100 * (scoreBreakdown kevinMarshall).urgency + 25/100 * (scoreBreakdown kevinMarshall).survival +
       12/100 * (scoreBreakdown kevinMarshall).immuno + 10/100 * (scoreBreakdown kevinMarshall).distance +
       10/100 * (scoreBreakdown kevinMarshall).readiness + 8/100 * (scoreBreakdown kevinMarshall).risk)|
      ≤ 1/1000000 ∧
    score_weights.sum = 1 :=
  scoring_subscores_bounded_and_composite_weighted kevinMarshall
    (by norm_num [kevinMarshall]) (by norm_num [kevinMarshall])
    (by norm_num [kevinMarshall]) (by norm_num [kevinMarshall])
    (by norm_num [kevinMarshall]) (by norm_num [kevinMarshall])
    (by norm_num [kevinMarshall]) (by norm_num [kevinMarshall])
    (by norm_num [kevinMarshall])

/-- C5 counterexample: on the README's worked-example inputs the composite
score is exactly 0.7975, not 0.798 as the claim states (0.798 is the README's
sum of three-decimal roundings). -/
theorem worked_example_composite_not_0798 :
    allocation_score kevinMarshall = 319/400 ∧ (319/400 : ℚ) ≠ 798/1000 := by
  constructor
  · unfold allocation_score urgency_score survival_score immuno_score
      distance_score readiness_score risk_adjustment total_penalty kevinMarshall
    norm_num
  · norm_num

/-- C5 amended: on the worked-example inputs the sub-scores are urgency 0.700,
survival 0.750, immuno 0.875, distance 0.880, readiness 1.000, risk 0.900, and
the composite is exactly 0.7975 (which the README displays rounded as 0.798). -/
theorem worked_example_scores :
    urgency_score kevinMarshall = 7/10 ∧
    survival_score kevinMarshall = 3/4 ∧
    immuno_score kevinMarshall = 7/8 ∧
    distance_score kevinMarshall = 22/25 ∧
    readiness_score kevinMarshall = 1 ∧
    risk_adjustment kevinMarshall = 9/10 ∧
    allocation_score kevinMarshall = 319/400 := by
  unfold allocation_score urgency_score survival_score immuno_score
    distance_score readiness_score risk_adjustment total_penalty kevinMarshall
  norm_num

/-- C6: the distance sub-score equals 1 - min(distance_km, 1000)/1000 for
every candidate, and a candidate at 1500 km receives distance score 0. -/
theorem distance_score_formula_and_clamp :
    (∀ p : PatientMarkers,
      distance_score p = 1 - min p.distance_to_donor_km 1000 / 1000) ∧
    distance_score farPatient = 0 := by
  constructor
  · intro p
    rfl
  · unfold distance_score farPatient
    norm_num

/-- C7: the risk-adjustment sub-score equals 1 minus the summed penalties of
the active risk flags floored at 0.0 (the floor never binds, since the four
penalties total at most 0.70), and a candidate with all four flags active
receives risk adjustment 0.30. -/
theorem risk_adjustment_formula_and_floor :
    (∀ p : PatientMarkers, risk_adjustment p = risk_adjustment_spec p) ∧
    risk_adjustment allRiskPatient = 3/10 := by
  constructor
  · intro p
    unfold risk_adjustment risk_adjustment_spec total_penalty
    rcases p.hepatocellular_carcinoma <;> rcases p.diabetes <;>
      rcases p.renal_failure <;> rcases p.ventilator_dependent <;> norm_num
  · unfold risk_adjustment total_penalty allRiskPatient
    norm_num

end LiverLink

namespace LiverLink

/-- Ranking comparator: a candidate (id, composite score) sorts before another
when its composite is higher, or on equal composites when its id is not
larger. Modelled from the spec: the ranked list is sorted descending by
composite score with ties broken by candidate identity. -/
def rankLE (a b : String × ℚ) : Bool :=
  decide (b.2 < a.2) || (decide (a.2 = b.2) && decide (a.1 ≤ b.1))

/-- Modelled from the spec: the Ranking Pipeline scores every candidate, sorts
descending by composite (ties by id) and keeps the top five for the persisted
run. -/
def rank_patients (cands : List (String × PatientMarkers)) : List (String × ℚ) :=
  ((cands.map (fun c => (c.1, allocation_score c.2))).mergeSort rankLE).take 5

/-- The Boolean comparator decoded as a proposition. -/
theorem rankLE_iff (a b : String × ℚ) :
    rankLE a b = true ↔ (b.2 < a.2 ∨ (a.2 = b.2 ∧ a.1 ≤ b.1)) := by
  simp [rankLE]

theorem rankLE_trans (a b c : String × ℚ)
    (hab : rankLE a b = true) (hbc : rankLE b c = true) : rankLE a c = true := by
  rw [rankLE_iff] at hab hbc ⊢
  rcases hab with h1 | ⟨h1, h1id⟩
  · rcases hbc with h2 | ⟨h2, _⟩
    · exact Or.inl (h2.trans h1)
    · exact Or.inl (h2 ▸ h1)
  · rcases hbc with h2 | ⟨h2, h2id⟩
    · exact Or.inl (h1 ▸ h2)
    · exact Or.inr ⟨h1.trans h2, h1id.trans h2id⟩

theorem rankLE_total (a b : String × ℚ) :
    (rankLE a b || rankLE b a) = true := by
  rcases lt_trichotomy a.2 b.2 with h | h | h
  · have : rankLE b a = true := (rankLE_iff b a).mpr (Or.inl h)
    simp [this]
  · rcases le_total a.1 b.1 with hid | hid
    · have : rankLE a b = true := (rankLE_iff a b).mpr (Or.inr ⟨h, hid⟩)
      simp [this]
    · have : rankLE b a = true := (rankLE_iff b a).mpr (Or.inr ⟨h.symm, hid⟩)
      simp [this]
  · have : rankLE a b = true := (rankLE_iff a b).mpr (Or.inl h)
    simp [this]

/-- C3: for every candidate list, the persisted ranked list is sorted
descending by composite score, adjacent ties broken by ascending candidate
identity: every pair in order satisfies "higher score, or equal score and
id not larger". -/
theorem ranked_candidates_sorted (cands : List (String × PatientMarkers)) :
    List.Pairwise
      (fun a b : String × ℚ => b.2 < a.2 ∨ (a.2 = b.2 ∧ a.1 ≤ b.1))
      (rank_patients cands) := by
  have hs := List.sorted_mergeSort rankLE_trans rankLE_total
      (cands.map (fun c => (c.1, allocation_score c.2)))
  have hp : List.Pairwise
      (fun a b : String × ℚ => b.2 < a.2 ∨ (a.2 = b.2 ∧ a.1 ≤ b.1))
      ((cands.map (fun c => (c.1, allocation_score c.2))).mergeSort rankLE) :=
    hs.imp (fun h => (rankLE_iff _ _).mp h)
  exact hp.sublist (List.take_sublist 5 _)

end LiverLink

namespace LiverLink

/-- Lifecycle status of a Run, per the spec's persisted record shape. -/
inductive RunStatus where
  | ranked
  | contacted
  | accepted
  | failed
deriving DecidableEq

/-- Terminal statuses admit no further transition. -/
def RunStatus.isTerminal : RunStatus → Bool
  | .accepted => true
  | .failed => true
  | _ => false

/-- One append-only Timeline entry; contact entries also carry the delivery
outcome reported by the external notifier. -/
structure TimelineEvent where
  kind : String
  detail : String
  delivered : Option Bool
deriving DecidableEq

/-- The central Run record of the Allocation Store. -/
structure Run where
  ranked_candidates : List (String × ScoreBreakdown)
  status : RunStatus
  accepted_candidate : Option String
  accepted_at : Option ℕ
  timeline : List TimelineEvent

/-- Typed outcomes surfaced by the Manual Action Gateway. -/
inductive AcceptError where
  | AlreadyAllocated
  | CandidateNotRanked
  | RunNotFound
deriving DecidableEq

/-- Modelled from the spec: the Allocation Store's guarded accept. The
backend accept-allocation handler is absent from the snapshot; per spec 4.3
the non-terminal-to-terminal transition is a single atomic compare-and-set on
the status field: accept succeeds only if the status was not already
terminal and the candidate is on the ranked list. -/
def accept (r : Run) (cid : String) (now : ℕ) : Except AcceptError Run :=
  if r.status.isTerminal then
    .error .AlreadyAllocated
  else if cid ∈ r.ranked_candidates.map Prod.fst then
    .ok { r with
            status := .accepted
            accepted_candidate := some cid
            accepted_at := some now
            timeline := r.timeline ++ [⟨"allocation-accepted", cid, none⟩] }
  else
    .error .CandidateNotRanked

/-- Linearization of N concurrent accept calls: because each call's guard is
one atomic compare-and-set, any concurrent execution is equivalent to running
the calls in some sequential order; the order is the argument list, which the
theorems quantify over. Returns the final run and each call's outcome. -/
def runAccepts : Run → List String → ℕ → Run × List (Except AcceptError Unit)
  | r, [], _ => (r, [])
  | r, c :: rest, t =>
    match accept r c t with
    | .ok r2 =>
      let p := runAccepts r2 rest (t + 1)
      (p.1, .ok () :: p.2)
    | .error e =>
      let p := runAccepts r rest (t + 1)
      (p.1, .error e :: p.2)

/-- On a terminal run every further accept call fails with AlreadyAllocated
and the run is unchanged. -/
theorem runAccepts_terminal (r : Run) (l : List String) (t : ℕ)
    (h : r.status.isTerminal = true) :
    runAccepts r l t = (r, l.map fun _ => Except.error AcceptError.AlreadyAllocated) := by
  induction l generalizing t with
  | nil => rfl
  | cons c rest ih =>
    have hacc : accept r c t = .error .AlreadyAllocated := by
      unfold accept
      rw [h]
      rfl
    simp only [runAccepts, hacc, ih (t + 1), List.map_cons]

end LiverLink

namespace LiverLink

/-- C1: for every run that is not yet terminal and every collection of accept
calls for distinct ranked candidates, executed in any linearization order
(head c first, then rest), exactly the first call succeeds, the other N-1
calls fail with AlreadyAllocated, the run ends accepted, and its final
accepted_candidate is one of the attempted candidates. -/
theorem accept_race_exactly_one_success (r : Run) (c : String) (rest : List String) (t : ℕ)
    (hterm : r.status.isTerminal = false)
    (hmem : ∀ x ∈ c :: rest, x ∈ r.ranked_candidates.map Prod.fst)
    (hnd : (c :: rest).Nodup) :
    (runAccepts r (c :: rest) t).2
      = Except.ok () :: (rest.map fun _ => Except.error AcceptError.AlreadyAllocated) ∧
    (runAccepts r (c :: rest) t).2.length = (c :: rest).length ∧
    (runAccepts r (c :: rest) t).1.status = RunStatus.accepted ∧
    (runAccepts r (c :: rest) t).1.accepted_candidate = some c ∧
    (∃ x ∈ c :: rest, (runAccepts r (c :: rest) t).1.accepted_candidate = some x) := by
  have hc : c ∈ r.ranked_candidates.map Prod.fst := hmem c (List.mem_cons_self c rest)
  have hacc : accept r c t
      = .ok { r with
                status := .accepted
                accepted_candidate := some c
                accepted_at := some t
                timeline := r.timeline ++ [⟨"allocation-accepted", c, none⟩] } := by
    unfold accept
    rw [hterm]
    simp [hc]
  have hrest := runAccepts_terminal
      { r with
          status := .accepted
          accepted_candidate := some c
          accepted_at := some t
          timeline := r.timeline ++ [⟨"allocation-accepted", c, none⟩] }
      rest (t + 1) rfl
  refine ⟨?_, ?_, ?_, ?_, ?_⟩ <;>
    simp only [runAccepts, hacc, hrest, List.length_cons, List.length_map]
  · exact ⟨c, List.mem_cons_self c rest, rfl⟩

/-- C1 witness: two concurrent accepts for the two ranked candidates of a
concrete fresh run; the first succeeds, the second gets AlreadyAllocated. -/
theorem accept_race_exactly_one_success_witness :
    (runAccepts
        { ranked_candidates := [("P001", scoreBreakdown kevinMarshall),
                                ("P002", scoreBreakdown farPatient)]
          status := .ranked
          accepted_candidate := none
          accepted_at := none
          timeline := [] }
        ["P001", "P002"] 0).2
      = Except.ok () :: ([ "P002" ].map fun _ => Except.error AcceptError.AlreadyAllocated) ∧
    (runAccepts
        { ranked_candidates := [("P001", scoreBreakdown kevinMarshall),
                                ("P002", scoreBreakdown farPatient)]
          status := .ranked
          accepted_candidate := none
          accepted_at := none
          timeline := [] }
        ["P001", "P002"] 0).2.length = (["P001", "P002"] : List String).length ∧
    (runAccepts
        { ranked_candidates := [("P001", scoreBreakdown kevinMarshall),
                                ("P002", scoreBreakdown farPatient)]
          status := .ranked
          accepted_candidate := none
          accepted_at := none
          timeline := [] }
        ["P001", "P002"] 0).1.status = RunStatus.accepted ∧
    (runAccepts
        { ranked_candidates := [("P001", scoreBreakdown kevinMarshall),
                                ("P002", scoreBreakdown farPatient)]
          status := .ranked
          accepted_candidate := none
          accepted_at := none
          timeline := [] }
        ["P001", "P002"] 0).1.accepted_candidate = some "P001" ∧
    (∃ x ∈ ("P001" :: ["P002"] : List String),
      (runAccepts
        { ranked_candidates := [("P001", scoreBreakdown kevinMarshall),
                                ("P002", scoreBreakdown farPatient)]
          status := .ranked
          accepted_candidate := none
          accepted_at := none
          timeline := [] }
        ["P001", "P002"] 0).1.accepted_candidate = some x) :=
  accept_race_exactly_one_success _ "P001" ["P002"] 0 rfl
    (by intro x hx; simp at hx; rcases hx with h | h <;> simp [h])
    (by simp)

end LiverLink

namespace LiverLink

/-- Delivery outcome reported by the external notifier; it never throws. -/
structure ContactOutcome where
  delivered : Bool
  detail : String

/-- Timeline entry recording one contact attempt and its delivery outcome. -/
def contactEvent (cid message : String) (o : ContactOutcome) : TimelineEvent :=
  ⟨"contact-attempted", cid ++ ": " ++ message, some o.delivered⟩

/-- Modelled from the spec: the contact-patient handler is absent from the
snapshot; per spec 4.3 and 4.4, contact(run, candidate, message) appends a
Timeline event with the notifier's outcome when the candidate is ranked, and
surfaces CandidateNotRanked otherwise; it never touches the status field. -/
def contact (r : Run) (cid message : String) (o : ContactOutcome) :
    Except AcceptError Run :=
  if cid ∈ r.ranked_candidates.map Prod.fst then
    .ok { r with timeline := r.timeline ++ [contactEvent cid message o] }
  else
    .error .CandidateNotRanked

/-- The stored run after a contact call: the updated run on success, the
untouched run when the call was rejected. -/
def contactRun (r : Run) (cid message : String) (o : ContactOutcome) : Run :=
  match contact r cid message o with
  | .ok r2 => r2
  | .error _ => r

/-- C8: a contact call never changes the run's status, accepted candidate,
acceptance time or ranked list; for a ranked candidate it appends exactly one
Timeline entry recording the attempt and its delivery outcome, and a repeated
contact for the same candidate appends a second entry (no deduplication)
while the status still equals the original. -/
theorem contact_preserves_status (r : Run) (cid m m2 : String)
    (o o2 : ContactOutcome) :
    (contactRun r cid m o).status = r.status ∧
    (contactRun r cid m o).accepted_candidate = r.accepted_candidate ∧
    (contactRun r cid m o).accepted_at = r.accepted_at ∧
    (contactRun r cid m o).ranked_candidates = r.ranked_candidates ∧
    (cid ∈ r.ranked_candidates.map Prod.fst →
      (contactRun r cid m o).timeline = r.timeline ++ [contactEvent cid m o] ∧
      (contactRun (contactRun r cid m o) cid m2 o2).timeline
        = r.timeline ++ [contactEvent cid m o, contactEvent cid m2 o2] ∧
      (contactRun (contactRun r cid m o) cid m2 o2).status = r.status) := by
  by_cases h : cid ∈ r.ranked_candidates.map Prod.fst
  · refine ⟨?_, ?_, ?_, ?_, fun _ => ⟨?_, ?_, ?_⟩⟩ <;>
      simp [contactRun, contact, h]
  · refine ⟨?_, ?_, ?_, ?_, fun hmem => absurd hmem h⟩ <;>
      simp [contactRun, contact, h]

/-- C8 witness: two consecutive contact calls for ranked candidate P001 of a
concrete run append two timeline entries and leave the status at ranked. -/
theorem contact_preserves_status_witness :
    (contactRun
        { ranked_candidates := [("P001", scoreBreakdown kevinMarshall)]
          status := .ranked
          accepted_candidate := none
          accepted_at := none
          timeline := [] }
        "P001" "liver available" ⟨true, "sent"⟩).status = RunStatus.ranked ∧
    (contactRun
        (contactRun
          { ranked_candidates := [("P001", scoreBreakdown kevinMarshall)]
            status := .ranked
            accepted_candidate := none
            accepted_at := none
            timeline := [] }
          "P001" "liver available" ⟨true, "sent"⟩)
        "P001" "second try" ⟨false, "no,answer"⟩).timeline
      = [contactEvent "P001" "liver available" ⟨true, "sent"⟩,
         contactEvent "P001" "second try" ⟨false, "no,answer"⟩] := by
  have h := contact_preserves_status
    { ranked_candidates := [("P001", scoreBreakdown kevinMarshall)]
      status := .ranked
      accepted_candidate := none
      accepted_at := none
      timeline := [] }
    "P001" "liver available" "second try" ⟨true, "sent"⟩ ⟨false, "no,answer"⟩
  have hmem : "P001" ∈
      ([("P001", scoreBreakdown kevinMarshall)].map
        (Prod.fst (α := String) (β := ScoreBreakdown))) := by simp
  exact ⟨h.1, ((h.2.2.2.2 hmem).2.1).trans (by simp)⟩

end LiverLink

namespace LiverLink

/-- States of the Ranking Pipeline; ranked is terminal for the pipeline. -/
inductive PipelineState where
  | fetching
  | predicting
  | scoring
  | ranked
deriving DecidableEq

/-- Progress event published to the Event Broadcaster; carries the backend
step name (fetch_patients, predict, rank) of the transition it announces. -/
structure ProgressEvent where
  step : String
deriving DecidableEq

/-- Modelled from the spec: the LangGraph pipeline is absent from the
snapshot; the simplified workflow is fetch_patients to predict to rank to
END, and each transition first emits a progress event and then advances, so
one step returns the emitted event together with the successor state, and the
terminal state returns none. -/
def pipelineStep : PipelineState → Option (ProgressEvent × PipelineState)
  | .fetching => some (⟨"fetch_patients"⟩, .predicting)
  | .predicting => some (⟨"predict"⟩, .scoring)
  | .scoring => some (⟨"rank"⟩, .ranked)
  | .ranked => none

/-- Driving the pipeline for a number of steps, collecting the events in
emission order: each transition's event is recorded before the run continues
from the successor state. -/
def runPipeline : ℕ → PipelineState → List ProgressEvent × PipelineState
  | 0, s => ([], s)
  | n + 1, s =>
    match pipelineStep s with
    | none => ([], s)
    | some (e, s2) =>
      let p := runPipeline n s2
      (e :: p.1, p.2)

/-- C4: the pipeline's state machine is exactly fetching to predicting to
scoring to ranked; ranked is the unique terminal state; each transition
yields one progress event, emitted before the successor state is entered; a
full run from fetching emits the three step events in order and ends ranked,
and stays there with no further events. -/
theorem pipeline_state_machine :
    (∀ s : PipelineState, pipelineStep s = none ↔ s = .ranked) ∧
    pipelineStep .fetching = some (⟨"fetch_patients"⟩, .predicting) ∧
    pipelineStep .predicting = some (⟨"predict"⟩, .scoring) ∧
    pipelineStep .scoring = some (⟨"rank"⟩, .ranked) ∧
    runPipeline 3 .fetching
      = ([⟨"fetch_patients"⟩, ⟨"predict"⟩, ⟨"rank"⟩], .ranked) ∧
    runPipeline 4 .fetching
      = ([⟨"fetch_patients"⟩, ⟨"predict"⟩, ⟨"rank"⟩], .ranked) := by
  refine ⟨?_, rfl, rfl, rfl, rfl, rfl⟩
  intro s
  cases s <;> simp [pipelineStep]

end LiverLink

namespace LiverLink

/-- Minimal patient record as the Agent Log UI consumes it. -/
structure UIPatient where
  patient_id : Option String
  name : Option String

/-- One allocation history entry as rendered by AgentLog.tsx. -/
structure AllocationEntry where
  entry_id : Option String
  donor_qr : Option String
  ranked_patients : List UIPatient
  accepted_patient : Option UIPatient

/-- Props that decide whether PatientCard renders its action buttons,
translated from the PatientCard component. -/
structure CardProps where
  isAccepted : Bool
  isAllocated : Bool
  hasContactHandler : Bool
  hasAcceptHandler : Bool
  allocationId : Option String
  donorQrCode : Option String

/-- PatientCard renders the Contact Surgeon and Accept and Allocate buttons
only when the card is not the accepted card, the entry is not allocated, both
handlers are provided, and both the allocation id and donor QR code are
present: translated from the guard in PatientCard. -/
def showActionButtons (c : CardProps) : Bool :=
  !c.isAccepted && !c.isAllocated && c.hasContactHandler && c.hasAcceptHandler
    && c.allocationId.isSome && c.donorQrCode.isSome

/-- Card props AgentLog passes to each ranked candidate card of one entry:
isAllocated is set exactly when the entry has an accepted patient, and both
handlers are always provided: translated from the ranked_patients map in
AgentLog. -/
def rankedCards (e : AllocationEntry) : List CardProps :=
  e.ranked_patients.map fun _ =>
    { isAccepted := false
      isAllocated := e.accepted_patient.isSome
      hasContactHandler := true
      hasAcceptHandler := true
      allocationId := e.entry_id
      donorQrCode := e.donor_qr }

/-- C9: for every Agent Log entry with a non-null accepted_patient, no ranked
candidate card of that entry renders the Contact Surgeon or Accept and
Allocate buttons: the isAllocated flag suppresses them on every card. -/
theorem allocated_entry_hides_action_buttons (e : AllocationEntry)
    (p : UIPatient) (h : e.accepted_patient = some p) :
    (rankedCards e).all (fun c => !showActionButtons c) = true := by
  simp only [List.all_eq_true, rankedCards, List.mem_map]
  rintro c ⟨x, hx, rfl⟩
  simp [showActionButtons, h]

/-- A concrete allocated history entry with two ranked candidates. -/
def demoAllocatedEntry : AllocationEntry :=
  { entry_id := some "6917b2665d3b1ebda84fa938"
    donor_qr := some "DONOR-URGENT-2024"
    ranked_patients := [⟨some "P001", some "Kevin Marshall"⟩,
                        ⟨some "P002", some "Daniel Brown"⟩]
    accepted_patient := some ⟨some "P001", some "Kevin Marshall"⟩ }

/-- C9 witness: on the concrete allocated entry every ranked card hides both
action buttons. -/
theorem allocated_entry_hides_action_buttons_witness :
    (rankedCards demoAllocatedEntry).all (fun c => !showActionButtons c) = true :=
  allocated_entry_hides_action_buttons demoAllocatedEntry
    ⟨some "P001", some "Kevin Marshall"⟩ rfl

end LiverLink

namespace LiverLink

/-- Client-side state of the Agent Log page: whether the 4-second auto
refresh interval is installed, and the currently rendered history. -/
structure AgentLogState where
  pollerActive : Bool
  history : List AllocationEntry

/-- Effect of one completed loadHistory call followed by the history effect
hook: the response replaces the rendered history, and the hook on history
clears the poller as soon as the list is non-empty: translated from
loadHistory and the useEffect on history in AgentLog. -/
def applyLoad (s : AgentLogState) (server : List AllocationEntry) : AgentLogState :=
  if server.length > 0 ∧ s.pollerActive = true then
    { pollerActive := false, history := server }
  else
    { pollerActive := s.pollerActive, history := server }

/-- User-visible events after mount: a 4-second poller tick whose load
returns the server's current history, a manual Refresh click, and a completed
accept in this session (which re-loads the history). -/
inductive UIEvent where
  | tick (server : List AllocationEntry)
  | refreshClick (server : List AllocationEntry)
  | acceptDone (server : List AllocationEntry)

/-- One event's effect on the page state: a tick only loads while the poller
is installed; Refresh clears the poller and loads; a completed accept loads:
translated from the interval callback, refresh and handleAcceptAllocation in
AgentLog. -/
def stepUI (s : AgentLogState) : UIEvent → AgentLogState
  | .tick server => if s.pollerActive then applyLoad s server else s
  | .refreshClick server => applyLoad { s with pollerActive := false } server
  | .acceptDone server => applyLoad s server

/-- Folding a sequence of events over the page state. -/
def runUI (s : AgentLogState) (evs : List UIEvent) : AgentLogState :=
  evs.foldl stepUI s

/-- A load never re-installs a cleared poller. -/
theorem applyLoad_pollerActive_false (s : AgentLogState)
    (server : List AllocationEntry) (h : s.pollerActive = false) :
    (applyLoad s server).pollerActive = false := by
  unfold applyLoad
  split <;> simp [h]

/-- C10: the auto-refresh poller is cancelled as soon as a load returns a
non-empty history; once cancelled, no later tick, Refresh or accept ever
re-installs it; after cancellation a poller tick changes nothing (server-side
changes are not reflected), while a manual Refresh or an accept performed in
this session does reload the server's history. -/
theorem poller_cancelled_permanently :
    (∀ (s : AgentLogState) (server : List AllocationEntry),
      s.pollerActive = true → server ≠ [] →
      (stepUI s (.tick server)).pollerActive = false) ∧
    (∀ (s : AgentLogState) (evs : List UIEvent),
      s.pollerActive = false → (runUI s evs).pollerActive = false) ∧
    (∀ (s : AgentLogState) (server : List AllocationEntry),
      s.pollerActive = false → stepUI s (.tick server) = s) ∧
    (∀ (s : AgentLogState) (server : List AllocationEntry),
      (stepUI s (.refreshClick server)).history = server) ∧
    (∀ (s : AgentLogState) (server : List AllocationEntry),
      (stepUI s (.acceptDone server)).history = server) := by
  refine ⟨?_, ?_, ?_, ?_, ?_⟩
  · intro s server hs hne
    have hlen : server.length > 0 := List.length_pos.mpr hne
    simp [stepUI, applyLoad, hs, hlen]
  · intro s evs
    induction evs generalizing s with
    | nil => intro h; exact h
    | cons ev rest ih =>
      intro h
      have hstep : (stepUI s ev).pollerActive = false := by
        cases ev with
        | tick server => simp [stepUI, h]
        | refreshClick server => exact applyLoad_pollerActive_false _ _ rfl
        | acceptDone server => exact applyLoad_pollerActive_false _ _ h
      exact ih (stepUI s ev) hstep
  · intro s server h
    simp [stepUI, h]
  · intro s server
    show (applyLoad { s with pollerActive := false } server).history = server
    unfold applyLoad
    split <;> rfl
  · intro s server
    show (applyLoad s server).history = server
    unfold applyLoad
    split <;> rfl

/-- C10 witness: on concrete states, a tick returning one entry cancels the
poller; with the poller cleared a tick, an accept and a Refresh leave it
cleared; a cleared-poller tick does not change the page; Refresh and accept
reload the history. -/
theorem poller_cancelled_permanently_witness :
    (stepUI ⟨true, []⟩ (.tick [demoAllocatedEntry])).pollerActive = false ∧
    (runUI ⟨false, [demoAllocatedEntry]⟩
      [.tick [], .acceptDone [demoAllocatedEntry],
       .refreshClick []]).pollerActive = false ∧
    stepUI ⟨false, [demoAllocatedEntry]⟩ (.tick []) = ⟨false, [demoAllocatedEntry]⟩ ∧
    (stepUI ⟨false, []⟩ (.refreshClick [demoAllocatedEntry])).history
      = [demoAllocatedEntry] ∧
    (stepUI ⟨false, []⟩ (.acceptDone [demoAllocatedEntry])).history
      = [demoAllocatedEntry] :=
  ⟨poller_cancelled_permanently.1 ⟨true, []⟩ [demoAllocatedEntry] rfl (by simp),
   poller_cancelled_permanently.2.1 ⟨false, [demoAllocatedEntry]⟩ _ rfl,
   poller_cancelled_permanently.2.2.1 ⟨false, [demoAllocatedEntry]⟩ [] rfl,
   poller_cancelled_permanently.2.2.2.1 ⟨false, []⟩ [demoAllocatedEntry],
   poller_cancelled_permanently.2.2.2.2 ⟨false, []⟩ [demoAllocatedEntry]⟩

end LiverLink
